import Mathlib

/-!
# GPS tracker (`gps.js`): distance engine and session life cycle

A shallow embedding of `src/gps.js`, in two readings of its numbers.

* Over exact real arithmetic (`ℝ`): `haversine`, `calculateTotalDistance` and the
  session tracker.  Rounding, overflow and the sign of zero are not held.  The one place
  where the session tracker can leave the finite numbers (a subtraction from an
  `undefined` start time, a division by a zero elapsed time) is held by `JSNumber`, the
  reals extended by `Infinity`, `-Infinity` and `NaN`.
* In binary64 arithmetic (`Double`): `haversineDouble` and
  `calculateTotalDistanceDouble`, where every operator rounds its exact result and
  `Math.sqrt` of a negative number is `NaN`.  The values of `Math.sin`, `Math.cos`,
  `Math.sqrt` and `Math.atan2`, which the language leaves to the implementation, are a
  parameter (`MathLibrary`).
-/

namespace GpsTracker

/-! ## Numbers -/

/-- The function `Math.atan2(y, x)`: the angle in `(-π, π]` of the point `(x, y)`, that is the
argument of `x + y i`; `Math.atan2(0, 0)` is `0`. -/
noncomputable def atan2 (y x : ℝ) : ℝ := Complex.arg ⟨x, y⟩

/-- A JavaScript number: a finite value, `Infinity`, `-Infinity` or `NaN`. -/
inductive JSNumber where
  | finite (r : ℝ)
  | posInf
  | negInf
  | nan

namespace JSNumber

/-- The `/` operator of JavaScript numbers (a zero is taken as `+0`). -/
noncomputable def div : JSNumber → JSNumber → JSNumber
  | nan, _ => nan
  | _, nan => nan
  | finite x, finite y =>
    if y = 0 then (if x = 0 then nan else if 0 < x then posInf else negInf)
    else finite (x / y)
  | finite _, posInf => finite 0
  | finite _, negInf => finite 0
  | posInf, finite y => if 0 ≤ y then posInf else negInf
  | negInf, finite y => if 0 ≤ y then negInf else posInf
  | posInf, posInf => nan
  | posInf, negInf => nan
  | negInf, posInf => nan
  | negInf, negInf => nan

/-- Whether the number is finite, as `Number.isFinite` tells. -/
def isFinite : JSNumber → Bool
  | finite _ => true
  | _ => false

end JSNumber

/-! ## Data model -/

/-- One element of `positions`: `{ lat, lon, time }`; `time` is a `Date`, held as
its millisecond time value. -/
structure Sample where
  lat : ℝ
  lon : ℝ
  time : Int

/-! ## Distance engine -/

/-- The function `haversine(lat1, lon1, lat2, lon2)` (gps.js:124-139) over exact real
arithmetic. -/
noncomputable def haversine (lat1 lon1 lat2 lon2 : ℝ) : ℝ :=
  let R : ℝ := 6371
  let dLat := ((lat2 - lat1) * Real.pi) / 180
  let dLon := ((lon2 - lon1) * Real.pi) / 180
  let a :=
    Real.sin (dLat / 2) * Real.sin (dLat / 2) +
      Real.cos ((lat1 * Real.pi) / 180) *
        Real.cos ((lat2 * Real.pi) / 180) *
        Real.sin (dLon / 2) *
        Real.sin (dLon / 2)
  let c := 2 * atan2 (Real.sqrt a) (Real.sqrt (1 - a))
  R * c

/-- The intermediate quantity `a` of `haversine` (gps.js:129-134) over exact real
arithmetic. -/
noncomputable def haversineA (lat1 lon1 lat2 lon2 : ℝ) : ℝ :=
  Real.sin ((((lat2 - lat1) * Real.pi) / 180) / 2) *
      Real.sin ((((lat2 - lat1) * Real.pi) / 180) / 2) +
    Real.cos ((lat1 * Real.pi) / 180) *
      Real.cos ((lat2 * Real.pi) / 180) *
      Real.sin ((((lon2 - lon1) * Real.pi) / 180) / 2) *
      Real.sin ((((lon2 - lon1) * Real.pi) / 180) / 2)

/-- The `for` loop of `calculateTotalDistance` (gps.js:105-112): `i` is the loop
counter and `totalDistance` the accumulator. -/
noncomputable def calculateTotalDistanceLoop (positions : List Sample) (i : Nat)
    (totalDistance : ℝ) : ℝ :=
  if h : i < positions.length then
    calculateTotalDistanceLoop positions (i + 1)
      (totalDistance +
        haversine
          (positions.get ⟨i - 1, by omega⟩).lat
          (positions.get ⟨i - 1, by omega⟩).lon
          (positions.get ⟨i, h⟩).lat
          (positions.get ⟨i, h⟩).lon)
  else totalDistance
termination_by positions.length - i

/-- The function `calculateTotalDistance()` (gps.js:103-114) over exact real arithmetic,
with the global `positions` as its argument. -/
noncomputable def calculateTotalDistance (positions : List Sample) : ℝ :=
  calculateTotalDistanceLoop positions 1 0

/-! ### The distance engine as the specification words it -/

/-- The Haversine formula of the specification:
`6371 * 2 * atan2(sqrt a, sqrt (1 - a))` with
`a = sin²(dLat/2) + cos(lat1·π/180)·cos(lat2·π/180)·sin²(dLon/2)`. -/
noncomputable def haversineFormula (lat1 lon1 lat2 lon2 : ℝ) : ℝ :=
  let dLat := (lat2 - lat1) * Real.pi / 180
  let dLon := (lon2 - lon1) * Real.pi / 180
  let a := Real.sin (dLat / 2) ^ 2 +
    Real.cos (lat1 * Real.pi / 180) * Real.cos (lat2 * Real.pi / 180) * Real.sin (dLon / 2) ^ 2
  6371 * 2 * atan2 (Real.sqrt a) (Real.sqrt (1 - a))

/-- The `i`-th summand of the specification, `haversine(p[i-1], p[i])`; it is `0`
when an index falls outside of `p`. -/
noncomputable def segmentFormula (p : List Sample) (i : Nat) : ℝ :=
  match p[i - 1]?, p[i]? with
  | some s, some t => haversineFormula s.lat s.lon t.lat t.lon
  | _, _ => 0

/-- The specification of the total distance: the sum over `i = 1..n-1`, in list
order, of `haversine(p[i-1], p[i])`. -/
noncomputable def totalDistanceFormula (p : List Sample) : ℝ :=
  ((List.range' 1 (p.length - 1)).map (segmentFormula p)).sum

/-- Sum of the distances between neighbours, by recursion on the list. -/
noncomputable def segSum : List Sample → ℝ
  | s :: t :: rest => haversine s.lat s.lon t.lat t.lon + segSum (t :: rest)
  | _ => 0

/-- Distance from an optional sample to a sample; `0` when the first is missing. -/
noncomputable def legFrom (o : Option Sample) (x : Sample) : ℝ :=
  match o with
  | some y => haversine y.lat y.lon x.lat x.lon
  | none => 0

/-! ## Session tracker -/

/-- What `OUTPUT_ELEMENT.innerHTML` holds.  A report holds its three numbers as
they are before `toFixed(2)` formats them. -/
inductive Output where
  /-- The content of the page before the program writes to it. -/
  | initial
  /-- The text "Tracking started...". -/
  | trackingStarted
  /-- The text "Not enough data collected.". -/
  | notEnoughData
  /-- The interim report "Tracking... Distance: … km Time: … mins Speed: … km/h". -/
  | tracking (totalDistance : ℝ) (timeTaken avgSpeed : JSNumber)
  /-- The final report "Total Distance: … km Time Taken: … mins Average Speed: … km/h". -/
  | final (totalDistance : ℝ) (timeTaken avgSpeed : JSNumber)

/-- The globals of `gps.js` together with the part of the host they act on. -/
structure State where
  /-- Whether `navigator.geolocation` exists. -/
  geolocation : Bool
  /-- Host: the ids of the watches that are registered and not cleared. -/
  liveWatches : List Nat
  /-- Host: the id the next `watchPosition` returns. -/
  nextWatchID : Nat
  /-- The messages shown by `alert`, oldest first. -/
  alerts : List String
  /-- Exceptions that left an event handler uncaught, oldest first. -/
  uncaught : List String
  /-- The global `watchID`; `none` is `undefined`. -/
  watchID : Option Nat
  /-- The global `positions`. -/
  positions : List Sample
  /-- The global `startTime`; `none` is `undefined`. -/
  startTime : Option Int
  /-- The content of the output element. -/
  innerHTML : Output
  /-- Whether the output element carries the class `pulse`. -/
  pulse : Bool

/-- The state of a freshly loaded page (gps.js:7-9); watch ids start at `1`. -/
def init (geolocation : Bool) : State :=
  { geolocation := geolocation
    liveWatches := []
    nextWatchID := 1
    alerts := []
    uncaught := []
    watchID := none
    positions := []
    startTime := none
    innerHTML := Output.initial
    pulse := false }

/-- The truth value of `watchID` in `if (watchID)`: `undefined` and `0` are false. -/
def watchIDTruthy (w : Option Nat) : Bool :=
  match w with
  | some id => id != 0
  | none => false

/-- The number `date - startTime` in milliseconds; `NaN` when `startTime` is
`undefined`. -/
def dateMinus (date : Int) (startTime : Option Int) : JSNumber :=
  match startTime with
  | some t => JSNumber.finite (((date - t : Int) : ℝ))
  | none => JSNumber.nan

/-- The function `updateStats()` (gps.js:88-97); `now` is the value of `new Date()`. -/
noncomputable def updateStats (s : State) (now : Int) : State :=
  let totalDistance := calculateTotalDistance s.positions
  let timeTaken :=
    ((dateMinus now s.startTime).div (JSNumber.finite 1000)).div (JSNumber.finite 60)
  let avgSpeed := (JSNumber.finite totalDistance).div (timeTaken.div (JSNumber.finite 60))
  { s with innerHTML := Output.tracking totalDistance timeTaken avgSpeed }

/-- The success callback handed to `watchPosition` (gps.js:30-42): `tSample` is the
`new Date()` stored in the sample, `tStats` the later one read by `updateStats`. -/
noncomputable def onPosition (s : State) (latitude longitude : ℝ) (tSample tStats : Int) :
    State :=
  let s1 := { s with
    positions := s.positions ++ [{ lat := latitude, lon := longitude, time := tSample }] }
  if s1.positions.length > 1 then updateStats s1 tStats else s1

/-- The error callback handed to `watchPosition` (gps.js:43). -/
def onError (s : State) (message : String) : State :=
  { s with alerts := s.alerts ++ ["Error getting location: " ++ message] }

/-- The function `startTracking()` (gps.js:18-54); `now` is the value of `new Date()`. -/
def startTracking (s : State) (now : Int) : State :=
  if !s.geolocation then
    { s with alerts := s.alerts ++ ["Geolocation is not supported by this browser."] }
  else
    { s with
      positions := []
      startTime := some now
      watchID := some s.nextWatchID
      liveWatches := s.liveWatches ++ [s.nextWatchID]
      nextWatchID := s.nextWatchID + 1
      innerHTML := Output.trackingStarted
      pulse := true }

/-- The function `stopTracking()` (gps.js:59-83); `now` is the value of `new Date()`.  Reading
`navigator.geolocation.clearWatch` when `navigator.geolocation` is missing throws a
`TypeError`, which ends the handler at its first statement. -/
noncomputable def stopTracking (s : State) (now : Int) : State :=
  if watchIDTruthy s.watchID && !s.geolocation then
    { s with uncaught := s.uncaught ++ ["TypeError"] }
  else
    let s1 :=
      if watchIDTruthy s.watchID then
        { s with liveWatches := s.liveWatches.filter (fun id => some id != s.watchID) }
      else s
    let s2 := { s1 with pulse := false }
    if s2.positions.length < 2 then
      { s2 with innerHTML := Output.notEnoughData }
    else
      let endTime := now
      let timeTaken :=
        ((dateMinus endTime s2.startTime).div (JSNumber.finite 1000)).div (JSNumber.finite 60)
      let totalDistance := calculateTotalDistance s2.positions
      let avgSpeed := (JSNumber.finite totalDistance).div (timeTaken.div (JSNumber.finite 60))
      { s2 with innerHTML := Output.final totalDistance timeTaken avgSpeed }

/-- What can happen to the page: a click on either button, or the host calling one
of the callbacks of the watch `id`. -/
inductive Event where
  | clickStart (now : Int)
  | clickStop (now : Int)
  | position (id : Nat) (latitude longitude : ℝ) (tSample tStats : Int)
  | positionError (id : Nat) (message : String)

/-- One event; the host calls the callbacks of live watches only. -/
noncomputable def step (s : State) : Event → State
  | Event.clickStart now => startTracking s now
  | Event.clickStop now => stopTracking s now
  | Event.position id latitude longitude tSample tStats =>
    if id ∈ s.liveWatches then onPosition s latitude longitude tSample tStats else s
  | Event.positionError id message =>
    if id ∈ s.liveWatches then onError s message else s

/-- The states the page can be in: those reached from a fresh page by events. -/
inductive Reachable : State → Prop where
  | init (geolocation : Bool) : Reachable (init geolocation)
  | step (s : State) (e : Event) : Reachable s → Reachable (step s e)

/-- Run a list of events, oldest first. -/
noncomputable def run (s : State) (es : List Event) : State :=
  es.foldl step s

/-! ### Example sessions -/

/-- A started session that has received one sample. -/
noncomputable def oneSampleSession : State :=
  run (init true) [Event.clickStart 0, Event.position 1 10 20 5 5]

/-- A session started at time `0` that received a sample after one minute and
another one after two minutes. -/
noncomputable def twoSampleSession : State :=
  run (init true) [Event.clickStart 0, Event.position 1 0 0 60000 60000,
    Event.position 1 0 1 120000 120000]

/-- A session whose two samples arrive in the millisecond of its start. -/
noncomputable def zeroElapsedSession : State :=
  run (init true) [Event.clickStart 0, Event.position 1 0 0 0 0, Event.position 1 0 0 0 0]

/-- Two clicks on the start button without a click on the stop button between
them. -/
noncomputable def restartedSession : State :=
  run (init true) [Event.clickStart 0, Event.clickStart 1]

/-! ## The distance engine in binary64 arithmetic -/

/-- A binary64 number: a finite value, held as the rational it stands for, `Infinity`,
`-Infinity` or `NaN`.  The sign of a zero is not held. -/
inductive Double where
  | finite (q : ℚ)
  | posInf
  | negInf
  | nan
deriving DecidableEq

/-- The number of binary digits of `n`; the first argument bounds the recursion. -/
def bitLengthAux : Nat → Nat → Nat
  | 0, _ => 0
  | fuel + 1, n => if n = 0 then 0 else bitLengthAux fuel (n / 2) + 1

/-- The number of binary digits of `n`. -/
def bitLength (n : Nat) : Nat := bitLengthAux n n

/-- The power `2 ^ k` of an integer `k`. -/
def pow2 (k : Int) : ℚ :=
  if 0 ≤ k then ((2 ^ k.toNat : Nat) : ℚ) else 1 / ((2 ^ (-k).toNat : Nat) : ℚ)

/-- The integer `e` with `2 ^ e ≤ x < 2 ^ (e + 1)`, for a positive `x`. -/
def floorLog2 (x : ℚ) : Int :=
  let e : Int := (bitLength x.num.natAbs : Int) - (bitLength x.den : Int)
  if pow2 e ≤ x then e else e - 1

/-- The integer nearest to a non-negative `q`; of two nearest ones the even one. -/
def roundHalfEven (q : ℚ) : Nat :=
  let n := q.num.natAbs
  let d := q.den
  if 2 * (n % d) < d then n / d
  else if d < 2 * (n % d) then n / d + 1
  else if (n / d) % 2 = 0 then n / d
  else n / d + 1

/-- Rounding of an exact result to binary64: to the nearest number with 53 binary
digits, of two nearest ones to the one whose last digit is even; the last digit is worth at
least `2 ^ (-1074)`, and a result of `2 ^ 1024` or more is infinite. -/
def round64 (x : ℚ) : Double :=
  if x = 0 then Double.finite 0
  else
    let e : Int := max (floorLog2 |x| - 52) (-1074)
    let y : ℚ := (roundHalfEven (|x| / pow2 e) : ℚ) * pow2 e
    if pow2 1024 ≤ y then (if 0 < x then Double.posInf else Double.negInf)
    else Double.finite (if 0 < x then y else -y)

namespace Double

/-- The `+` operator of binary64 numbers. -/
def add : Double → Double → Double
  | nan, _ => nan
  | _, nan => nan
  | posInf, negInf => nan
  | negInf, posInf => nan
  | posInf, _ => posInf
  | negInf, _ => negInf
  | _, posInf => posInf
  | _, negInf => negInf
  | finite x, finite y => round64 (x + y)

/-- The binary `-` operator of binary64 numbers. -/
def sub : Double → Double → Double
  | nan, _ => nan
  | _, nan => nan
  | posInf, posInf => nan
  | negInf, negInf => nan
  | posInf, _ => posInf
  | negInf, _ => negInf
  | _, posInf => negInf
  | _, negInf => posInf
  | finite x, finite y => round64 (x - y)

/-- The `*` operator of binary64 numbers. -/
def mul : Double → Double → Double
  | nan, _ => nan
  | _, nan => nan
  | finite x, finite y => round64 (x * y)
  | finite x, posInf => if x = 0 then nan else if 0 < x then posInf else negInf
  | finite x, negInf => if x = 0 then nan else if 0 < x then negInf else posInf
  | posInf, finite y => if y = 0 then nan else if 0 < y then posInf else negInf
  | negInf, finite y => if y = 0 then nan else if 0 < y then negInf else posInf
  | posInf, posInf => posInf
  | posInf, negInf => negInf
  | negInf, posInf => negInf
  | negInf, negInf => posInf

/-- The `/` operator of binary64 numbers (a zero is taken as `+0`). -/
def div : Double → Double → Double
  | nan, _ => nan
  | _, nan => nan
  | finite x, finite y =>
    if y = 0 then (if x = 0 then nan else if 0 < x then posInf else negInf)
    else round64 (x / y)
  | finite _, posInf => finite 0
  | finite _, negInf => finite 0
  | posInf, finite y => if 0 ≤ y then posInf else negInf
  | negInf, finite y => if 0 ≤ y then negInf else posInf
  | posInf, posInf => nan
  | posInf, negInf => nan
  | negInf, posInf => nan
  | negInf, negInf => nan

end Double

/-- The functions of `Math` whose values the language leaves to the implementation:
`sin` and `cos` at a finite number, `sqrt` at a finite number that is not negative, and
`atan2` at two numbers that are not `NaN`. -/
structure MathLibrary where
  sin : ℚ → ℚ
  cos : ℚ → ℚ
  sqrt : ℚ → ℚ
  atan2 : Double → Double → Double

/-- The constant `Math.PI`, the binary64 number nearest to π. -/
def mathPI : Double := Double.finite (884279719003555 / 281474976710656)

/-- The function `Math.sin`: `NaN` at `NaN` and at an infinite number. -/
def mathSin (M : MathLibrary) : Double → Double
  | Double.finite q => Double.finite (M.sin q)
  | _ => Double.nan

/-- The function `Math.cos`: `NaN` at `NaN` and at an infinite number. -/
def mathCos (M : MathLibrary) : Double → Double
  | Double.finite q => Double.finite (M.cos q)
  | _ => Double.nan

/-- The function `Math.sqrt`: `NaN` at `NaN` and at every negative number, `Infinity`
at `Infinity`. -/
def mathSqrt (M : MathLibrary) : Double → Double
  | Double.finite q => if q < 0 then Double.nan else Double.finite (M.sqrt q)
  | Double.posInf => Double.posInf
  | Double.negInf => Double.nan
  | Double.nan => Double.nan

/-- The function `Math.atan2(y, x)`: `NaN` when `y` or `x` is `NaN`. -/
def mathAtan2 (M : MathLibrary) : Double → Double → Double
  | Double.nan, _ => Double.nan
  | _, Double.nan => Double.nan
  | y, x => M.atan2 y x

/-- The function `haversine(lat1, lon1, lat2, lon2)` (gps.js:124-139) in binary64
arithmetic. -/
def haversineDouble (M : MathLibrary) (lat1 lon1 lat2 lon2 : Double) : Double :=
  let R : Double := Double.finite 6371
  let dLat := ((lat2.sub lat1).mul mathPI).div (Double.finite 180)
  let dLon := ((lon2.sub lon1).mul mathPI).div (Double.finite 180)
  let a :=
    ((mathSin M (dLat.div (Double.finite 2))).mul
        (mathSin M (dLat.div (Double.finite 2)))).add
      ((((mathCos M ((lat1.mul mathPI).div (Double.finite 180))).mul
            (mathCos M ((lat2.mul mathPI).div (Double.finite 180)))).mul
          (mathSin M (dLon.div (Double.finite 2)))).mul
        (mathSin M (dLon.div (Double.finite 2))))
  let c := (Double.finite 2).mul
    (mathAtan2 M (mathSqrt M a) (mathSqrt M ((Double.finite 1).sub a)))
  R.mul c

/-- The intermediate quantity `a` of `haversine` (gps.js:129-134) in binary64
arithmetic. -/
def haversineADouble (M : MathLibrary) (lat1 lon1 lat2 lon2 : Double) : Double :=
  ((mathSin M ((((lat2.sub lat1).mul mathPI).div (Double.finite 180)).div
        (Double.finite 2))).mul
      (mathSin M ((((lat2.sub lat1).mul mathPI).div (Double.finite 180)).div
        (Double.finite 2)))).add
    ((((mathCos M ((lat1.mul mathPI).div (Double.finite 180))).mul
          (mathCos M ((lat2.mul mathPI).div (Double.finite 180)))).mul
        (mathSin M ((((lon2.sub lon1).mul mathPI).div (Double.finite 180)).div
          (Double.finite 2)))).mul
      (mathSin M ((((lon2.sub lon1).mul mathPI).div (Double.finite 180)).div
        (Double.finite 2))))

/-- One element of `positions` with its coordinates as binary64 numbers. -/
structure DoubleSample where
  lat : Double
  lon : Double
  time : Int

/-- The `for` loop of `calculateTotalDistance` (gps.js:105-112) in binary64
arithmetic. -/
def calculateTotalDistanceDoubleLoop (M : MathLibrary) (positions : List DoubleSample)
    (i : Nat) (totalDistance : Double) : Double :=
  if h : i < positions.length then
    calculateTotalDistanceDoubleLoop M positions (i + 1)
      (totalDistance.add
        (haversineDouble M
          (positions.get ⟨i - 1, by omega⟩).lat
          (positions.get ⟨i - 1, by omega⟩).lon
          (positions.get ⟨i, h⟩).lat
          (positions.get ⟨i, h⟩).lon))
  else totalDistance
termination_by positions.length - i

/-- The function `calculateTotalDistance()` (gps.js:103-114) in binary64 arithmetic. -/
def calculateTotalDistanceDouble (M : MathLibrary) (positions : List DoubleSample) :
    Double :=
  calculateTotalDistanceDoubleLoop M positions 1 (Double.finite 0)

/-- The values of `Math.sin` and `Math.cos` at the four arguments that
`haversine(8, 0, -8, 180)` passes to them: the binary64 numbers nearest to the true
sine and cosine, which the `fdlibm` routines of the JavaScript engines return. -/
def AntipodeValues (M : MathLibrary) : Prop :=
  M.sin (-5030569068109113 / 36028797018963968) = -5014239404989977 / 36028797018963968 ∧
    M.cos (5030569068109113 / 36028797018963968) = 4459770905381437 / 4503599627370496 ∧
    M.cos (-5030569068109113 / 36028797018963968) = 4459770905381437 / 4503599627370496 ∧
    M.sin (884279719003555 / 562949953421312) = 1

/-- A library that holds the values of `AntipodeValues` and is `0` elsewhere. -/
def tableLibrary : MathLibrary :=
  { sin := fun q =>
      if q = -5030569068109113 / 36028797018963968 then
        -5014239404989977 / 36028797018963968
      else if q = 884279719003555 / 562949953421312 then 1
      else 0
    cos := fun q =>
      if q = 5030569068109113 / 36028797018963968 then 4459770905381437 / 4503599627370496
      else if q = -5030569068109113 / 36028797018963968 then
        4459770905381437 / 4503599627370496
      else 0
    sqrt := fun _ => 0
    atan2 := fun _ _ => Double.finite 0 }

/-! ## Helper lemmas: the distance engine -/

theorem haversine_eq_a (lat1 lon1 lat2 lon2 : ℝ) :
    haversine lat1 lon1 lat2 lon2 =
      6371 * (2 * atan2 (Real.sqrt (haversineA lat1 lon1 lat2 lon2))
        (Real.sqrt (1 - haversineA lat1 lon1 lat2 lon2))) := rfl

theorem haversine_trig_identity (u v s : ℝ) :
    Real.sin (v - u) * Real.sin (v - u) + Real.cos (2 * u) * Real.cos (2 * v) * s * s =
      (1 - s ^ 2) * Real.sin (v - u) ^ 2 + s ^ 2 * Real.cos (u + v) ^ 2 := by
  rw [Real.sin_sub, Real.cos_add, Real.cos_two_mul, Real.cos_two_mul]
  have hu := Real.sin_sq_add_cos_sq u
  have hv := Real.sin_sq_add_cos_sq v
  linear_combination
    s ^ 2 * ((Real.cos v ^ 2 - Real.sin v ^ 2) * hu + (2 * Real.cos u ^ 2 - 1) * hv)

/-- The quantity `a` is a convex combination of a squared sine and a squared
cosine, with weight `sin²(dLon/2)`. -/
theorem haversineA_convex (lat1 lon1 lat2 lon2 : ℝ) :
    haversineA lat1 lon1 lat2 lon2 =
      (1 - Real.sin ((((lon2 - lon1) * Real.pi) / 180) / 2) ^ 2) *
          Real.sin ((((lat2 - lat1) * Real.pi) / 180) / 2) ^ 2 +
        Real.sin ((((lon2 - lon1) * Real.pi) / 180) / 2) ^ 2 *
          Real.cos (lat1 * Real.pi / 180 / 2 + lat2 * Real.pi / 180 / 2) ^ 2 := by
  have key := haversine_trig_identity (lat1 * Real.pi / 180 / 2) (lat2 * Real.pi / 180 / 2)
    (Real.sin ((((lon2 - lon1) * Real.pi) / 180) / 2))
  have e1 : lat2 * Real.pi / 180 / 2 - lat1 * Real.pi / 180 / 2
      = (((lat2 - lat1) * Real.pi) / 180) / 2 := by ring
  have e2 : 2 * (lat1 * Real.pi / 180 / 2) = (lat1 * Real.pi) / 180 := by ring
  have e3 : 2 * (lat2 * Real.pi / 180 / 2) = (lat2 * Real.pi) / 180 := by ring
  rw [e1, e2, e3] at key
  unfold haversineA
  exact key

theorem haversineA_nonneg (lat1 lon1 lat2 lon2 : ℝ) :
    0 ≤ haversineA lat1 lon1 lat2 lon2 := by
  rw [haversineA_convex]
  have hs := Real.sin_sq_le_one ((((lon2 - lon1) * Real.pi) / 180) / 2)
  have h1 : 0 ≤ 1 - Real.sin ((((lon2 - lon1) * Real.pi) / 180) / 2) ^ 2 := by linarith
  positivity

theorem haversineA_le_one (lat1 lon1 lat2 lon2 : ℝ) :
    haversineA lat1 lon1 lat2 lon2 ≤ 1 := by
  rw [haversineA_convex]
  have hs := Real.sin_sq_le_one ((((lon2 - lon1) * Real.pi) / 180) / 2)
  have hs0 := sq_nonneg (Real.sin ((((lon2 - lon1) * Real.pi) / 180) / 2))
  have ha := Real.sin_sq_le_one ((((lat2 - lat1) * Real.pi) / 180) / 2)
  have hb := Real.cos_sq_le_one (lat1 * Real.pi / 180 / 2 + lat2 * Real.pi / 180 / 2)
  nlinarith

theorem atan2_nonneg {y : ℝ} (x : ℝ) (hy : 0 ≤ y) : 0 ≤ atan2 y x := by
  unfold atan2
  exact Complex.arg_nonneg_iff.mpr hy

theorem atan2_le_pi_div_two {x : ℝ} (y : ℝ) (hx : 0 ≤ x) : atan2 y x ≤ Real.pi / 2 := by
  unfold atan2
  exact Complex.arg_le_pi_div_two_iff.mpr (Or.inl hx)

theorem atan2_zero_one : atan2 0 1 = 0 := by
  unfold atan2
  exact Complex.arg_eq_zero_iff.mpr ⟨zero_le_one, rfl⟩

theorem atan2_one_zero : atan2 1 0 = Real.pi / 2 := by
  unfold atan2
  exact Complex.arg_eq_pi_div_two_iff.mpr ⟨rfl, zero_lt_one⟩

theorem haversine_nonneg (lat1 lon1 lat2 lon2 : ℝ) : 0 ≤ haversine lat1 lon1 lat2 lon2 := by
  rw [haversine_eq_a]
  have h := atan2_nonneg (Real.sqrt (1 - haversineA lat1 lon1 lat2 lon2))
    (Real.sqrt_nonneg (haversineA lat1 lon1 lat2 lon2))
  positivity

theorem haversine_le (lat1 lon1 lat2 lon2 : ℝ) :
    haversine lat1 lon1 lat2 lon2 ≤ 6371 * Real.pi := by
  rw [haversine_eq_a]
  have h := atan2_le_pi_div_two (Real.sqrt (haversineA lat1 lon1 lat2 lon2))
    (Real.sqrt_nonneg (1 - haversineA lat1 lon1 lat2 lon2))
  linarith

theorem haversineA_comm (lat1 lon1 lat2 lon2 : ℝ) :
    haversineA lat1 lon1 lat2 lon2 = haversineA lat2 lon2 lat1 lon1 := by
  unfold haversineA
  have e1 : (((lat1 - lat2) * Real.pi) / 180) / 2 = -((((lat2 - lat1) * Real.pi) / 180) / 2) := by
    ring
  have e2 : (((lon1 - lon2) * Real.pi) / 180) / 2 = -((((lon2 - lon1) * Real.pi) / 180) / 2) := by
    ring
  rw [e1, e2, Real.sin_neg, Real.sin_neg]
  ring

theorem haversine_comm (lat1 lon1 lat2 lon2 : ℝ) :
    haversine lat1 lon1 lat2 lon2 = haversine lat2 lon2 lat1 lon1 := by
  rw [haversine_eq_a, haversine_eq_a, haversineA_comm]

theorem haversineA_self (lat lon : ℝ) : haversineA lat lon lat lon = 0 := by
  unfold haversineA
  simp

theorem haversine_self (lat lon : ℝ) : haversine lat lon lat lon = 0 := by
  rw [haversine_eq_a, haversineA_self]
  simp [atan2_zero_one]

theorem haversineA_antipode (lat lon : ℝ) : haversineA lat lon (-lat) (lon + 180) = 1 := by
  unfold haversineA
  have e1 : (((-lat - lat) * Real.pi) / 180) / 2 = -((lat * Real.pi) / 180) := by ring
  have e2 : (((lon + 180 - lon) * Real.pi) / 180) / 2 = Real.pi / 2 := by ring
  have e3 : (-lat * Real.pi) / 180 = -((lat * Real.pi) / 180) := by ring
  rw [e1, e2, e3, Real.sin_neg, Real.cos_neg, Real.sin_pi_div_two]
  have h := Real.sin_sq_add_cos_sq ((lat * Real.pi) / 180)
  linear_combination h

theorem haversine_antipode (lat lon : ℝ) :
    haversine lat lon (-lat) (lon + 180) = 6371 * Real.pi := by
  rw [haversine_eq_a, haversineA_antipode]
  simp [atan2_one_zero]
  ring

theorem haversine_eq_formula (lat1 lon1 lat2 lon2 : ℝ) :
    haversine lat1 lon1 lat2 lon2 = haversineFormula lat1 lon1 lat2 lon2 := by
  simp only [haversine, haversineFormula, pow_two, mul_assoc]

theorem segmentFormula_eq (p : List Sample) (i : Nat) (h : i < p.length) :
    segmentFormula p i =
      haversine (p.get ⟨i - 1, by omega⟩).lat (p.get ⟨i - 1, by omega⟩).lon
        (p.get ⟨i, h⟩).lat (p.get ⟨i, h⟩).lon := by
  have h1 : i - 1 < p.length := by omega
  simp [segmentFormula, List.getElem?_eq_getElem h, List.getElem?_eq_getElem h1,
    haversine_eq_formula]

/-- Loop invariant, against the sum of the specification. -/
theorem loop_eq_formula (p : List Sample) :
    ∀ (n i : Nat) (acc : ℝ), p.length - i = n →
      calculateTotalDistanceLoop p i acc =
        acc + ((List.range' i (p.length - i)).map (segmentFormula p)).sum := by
  intro n
  induction n with
  | zero =>
    intro i acc hn
    rw [calculateTotalDistanceLoop]
    have h : ¬ i < p.length := by omega
    simp [h, hn]
  | succ n ih =>
    intro i acc hn
    rw [calculateTotalDistanceLoop]
    have h : i < p.length := by omega
    have hlen : p.length - i = (p.length - (i + 1)) + 1 := by omega
    rw [dif_pos h, ih (i + 1) _ (by omega), hlen, List.range'_succ, List.map_cons,
      List.sum_cons, segmentFormula_eq p i h]
    ring

/-- Loop invariant, against the recursive sum over neighbours. -/
theorem loop_eq_segSum (p : List Sample) :
    ∀ (n i : Nat) (acc : ℝ), 1 ≤ i → p.length - i = n →
      calculateTotalDistanceLoop p i acc = acc + segSum (p.drop (i - 1)) := by
  intro n
  induction n with
  | zero =>
    intro i acc hi hn
    rw [calculateTotalDistanceLoop]
    have h : ¬ i < p.length := by omega
    rw [dif_neg h]
    by_cases hlt : i - 1 < p.length
    · rw [List.drop_eq_getElem_cons hlt, List.drop_eq_nil_of_le (by omega)]
      simp [segSum]
    · rw [List.drop_eq_nil_of_le (by omega)]
      simp [segSum]
  | succ n ih =>
    intro i acc hi hn
    rw [calculateTotalDistanceLoop]
    have h : i < p.length := by omega
    have h1 : i - 1 < p.length := by omega
    have e : i - 1 + 1 = i := by omega
    rw [dif_pos h, ih (i + 1) _ (by omega) (by omega), List.drop_eq_getElem_cons h1]
    simp only [e, Nat.add_sub_cancel]
    rw [List.drop_eq_getElem_cons h, segSum]
    simp only [List.get_eq_getElem]
    ring

theorem calculateTotalDistance_eq_segSum (p : List Sample) :
    calculateTotalDistance p = segSum p := by
  unfold calculateTotalDistance
  rw [loop_eq_segSum p _ 1 0 (le_refl 1) rfl]
  simp

theorem legFrom_nonneg (o : Option Sample) (x : Sample) : 0 ≤ legFrom o x := by
  cases o with
  | none => simp [legFrom]
  | some y => simpa [legFrom] using haversine_nonneg y.lat y.lon x.lat x.lon

theorem segSum_nonneg : ∀ p : List Sample, 0 ≤ segSum p
  | [] => by simp [segSum]
  | [_] => by simp [segSum]
  | s :: t :: rest => by
    rw [segSum]
    have h1 := haversine_nonneg s.lat s.lon t.lat t.lon
    have h2 := segSum_nonneg (t :: rest)
    linarith

theorem segSum_cons (a : Sample) (l : List Sample) :
    segSum (a :: l) = legFrom l.head? a + segSum l := by
  cases l with
  | nil => simp [segSum, legFrom]
  | cons b rest => simp [segSum, legFrom, haversine_comm a.lat a.lon b.lat b.lon]

theorem segSum_append_single (x : Sample) :
    ∀ l : List Sample, segSum (l ++ [x]) = segSum l + legFrom l.getLast? x
  | [] => by simp [segSum, legFrom]
  | [a] => by simp [segSum, legFrom]
  | a :: b :: rest => by
    have ih := segSum_append_single x (b :: rest)
    rw [List.cons_append] at ih
    rw [List.cons_append, List.cons_append, segSum, ih, List.getLast?_cons_cons, segSum]
    ring

theorem segSum_reverse : ∀ l : List Sample, segSum l.reverse = segSum l
  | [] => by simp
  | a :: l => by
    rw [List.reverse_cons, segSum_append_single, segSum_reverse l, List.getLast?_reverse,
      segSum_cons]
    ring

theorem segSum_same (lat lon : ℝ) :
    ∀ p : List Sample, (∀ s ∈ p, s.lat = lat ∧ s.lon = lon) → segSum p = 0
  | [], _ => by simp [segSum]
  | [_], _ => by simp [segSum]
  | s :: t :: rest, h => by
    have hs := h s (by simp)
    have ht := h t (by simp)
    have ih := segSum_same lat lon (t :: rest) (fun u hu => h u (List.mem_cons_of_mem _ hu))
    rw [segSum, ih, hs.1, hs.2, ht.1, ht.2, haversine_self]
    simp

/-! ## Helper lemmas: the session tracker -/

theorem stopTracking_watchID (s : State) (now : Int) :
    (stopTracking s now).watchID = s.watchID := by
  unfold stopTracking
  dsimp only
  split_ifs <;> rfl

theorem stopTracking_geolocation (s : State) (now : Int) :
    (stopTracking s now).geolocation = s.geolocation := by
  unfold stopTracking
  dsimp only
  split_ifs <;> rfl

theorem onPosition_watchID (s : State) (latitude longitude : ℝ) (tSample tStats : Int) :
    (onPosition s latitude longitude tSample tStats).watchID = s.watchID := by
  unfold onPosition updateStats
  dsimp only
  split_ifs <;> rfl

theorem onPosition_geolocation (s : State) (latitude longitude : ℝ) (tSample tStats : Int) :
    (onPosition s latitude longitude tSample tStats).geolocation = s.geolocation := by
  unfold onPosition updateStats
  dsimp only
  split_ifs <;> rfl

/-- In every reachable state a truthy `watchID` was returned by `watchPosition`, so
`navigator.geolocation` exists. -/
theorem reachable_geolocation (s : State) (h : Reachable s) :
    watchIDTruthy s.watchID = true → s.geolocation = true := by
  induction h with
  | init g => simp [init, watchIDTruthy]
  | step s e _ ih =>
    cases e with
    | clickStart now =>
      by_cases hg : s.geolocation = true
      · intro _
        simp [step, startTracking, hg]
      · simpa [step, startTracking, hg] using ih
    | clickStop now =>
      simpa [step, stopTracking_watchID, stopTracking_geolocation] using ih
    | position id latitude longitude tSample tStats =>
      by_cases hid : id ∈ s.liveWatches
      · simpa [step, hid, onPosition_watchID, onPosition_geolocation] using ih
      · simpa [step, hid] using ih
    | positionError id message =>
      by_cases hid : id ∈ s.liveWatches
      · simpa [step, hid, onError] using ih
      · simpa [step, hid] using ih

/-- In a reachable state `stopTracking` does not throw. -/
theorem reachable_no_throw (s : State) (h : Reachable s) :
    (watchIDTruthy s.watchID && !s.geolocation) = false := by
  cases hw : watchIDTruthy s.watchID with
  | false => simp
  | true => simp [reachable_geolocation s h hw]

theorem run_reachable (s : State) (es : List Event) (h : Reachable s) :
    Reachable (run s es) := by
  induction es generalizing s with
  | nil => exact h
  | cons e es ih => exact ih (step s e) (Reachable.step s e h)

theorem jsdiv_finite (x y : ℝ) (hy : y ≠ 0) :
    (JSNumber.finite x).div (JSNumber.finite y) = JSNumber.finite (x / y) := by
  simp [JSNumber.div, hy]

theorem jsdiv_zero (x : ℝ) (hx : 0 ≤ x) :
    (JSNumber.finite x).div (JSNumber.finite 0) =
      if x = 0 then JSNumber.nan else JSNumber.posInf := by
  by_cases h : x = 0
  · simp [JSNumber.div, h]
  · have hpos : 0 < x := lt_of_le_of_ne hx (Ne.symm h)
    simp [JSNumber.div, h, hpos]

theorem calculateTotalDistance_nonneg (p : List Sample) : 0 ≤ calculateTotalDistance p := by
  rw [calculateTotalDistance_eq_segSum]
  exact segSum_nonneg p

/-- The output of `stopTracking` in a state where it does not throw. -/
theorem stopTracking_innerHTML (s : State) (now : Int)
    (h : (watchIDTruthy s.watchID && !s.geolocation) = false) :
    (stopTracking s now).innerHTML =
      if s.positions.length < 2 then Output.notEnoughData
      else Output.final (calculateTotalDistance s.positions)
        (((dateMinus now s.startTime).div (JSNumber.finite 1000)).div (JSNumber.finite 60))
        ((JSNumber.finite (calculateTotalDistance s.positions)).div
          ((((dateMinus now s.startTime).div (JSNumber.finite 1000)).div
            (JSNumber.finite 60)).div (JSNumber.finite 60))) := by
  have hc : ¬ ((watchIDTruthy s.watchID && !s.geolocation) = true) := by
    rw [h]
    simp
  unfold stopTracking
  rw [if_neg hc]
  dsimp only
  split_ifs <;> rfl

theorem stopTracking_positions (s : State) (now : Int) :
    (stopTracking s now).positions = s.positions := by
  unfold stopTracking
  dsimp only
  split_ifs <;> rfl

theorem stopTracking_startTime (s : State) (now : Int) :
    (stopTracking s now).startTime = s.startTime := by
  unfold stopTracking
  dsimp only
  split_ifs <;> rfl

/-- The elapsed minutes between a start time and a later reading of the clock. -/
theorem timeTaken_eq (t0 t1 : Int) :
    ((dateMinus t1 (some t0)).div (JSNumber.finite 1000)).div (JSNumber.finite 60) =
      JSNumber.finite (((t1 - t0 : Int) : ℝ) / 60000) := by
  rw [dateMinus, jsdiv_finite _ _ (by norm_num), jsdiv_finite _ _ (by norm_num)]
  congr 1
  ring

/-! ## Helper lemmas: binary64 arithmetic -/

theorem dLat_half_eval :
    ((((Double.finite (-8)).sub (Double.finite 8)).mul mathPI).div (Double.finite 180)).div
      (Double.finite 2) = Double.finite (-5030569068109113 / 36028797018963968) := by
  decide!

theorem dLon_half_eval :
    ((((Double.finite 180).sub (Double.finite 0)).mul mathPI).div (Double.finite 180)).div
      (Double.finite 2) = Double.finite (884279719003555 / 562949953421312) := by
  decide!

theorem lat1_rad_eval :
    ((Double.finite 8).mul mathPI).div (Double.finite 180) =
      Double.finite (5030569068109113 / 36028797018963968) := by
  decide!

theorem lat2_rad_eval :
    ((Double.finite (-8)).mul mathPI).div (Double.finite 180) =
      Double.finite (-5030569068109113 / 36028797018963968) := by
  decide!

theorem a_sum_eval :
    ((Double.finite (-5014239404989977 / 36028797018963968)).mul
        (Double.finite (-5014239404989977 / 36028797018963968))).add
      ((((Double.finite (4459770905381437 / 4503599627370496)).mul
            (Double.finite (4459770905381437 / 4503599627370496))).mul
          (Double.finite 1)).mul (Double.finite 1)) =
      Double.finite (4503599627370497 / 4503599627370496) := by
  decide!

theorem haversineADouble_antipode (M : MathLibrary) (hM : AntipodeValues M) :
    haversineADouble M (Double.finite 8) (Double.finite 0) (Double.finite (-8))
      (Double.finite 180) = Double.finite (4503599627370497 / 4503599627370496) := by
  obtain ⟨h1, h2, h3, h4⟩ := hM
  unfold haversineADouble
  rw [dLat_half_eval, dLon_half_eval, lat1_rad_eval, lat2_rad_eval]
  simp only [mathSin, mathCos, h1, h2, h3, h4]
  exact a_sum_eval

theorem tableLibrary_values : AntipodeValues tableLibrary := by
  unfold AntipodeValues tableLibrary
  decide!

theorem haversineDouble_eq_a (M : MathLibrary) (lat1 lon1 lat2 lon2 : Double) :
    haversineDouble M lat1 lon1 lat2 lon2 =
      (Double.finite 6371).mul ((Double.finite 2).mul
        (mathAtan2 M (mathSqrt M (haversineADouble M lat1 lon1 lat2 lon2))
          (mathSqrt M ((Double.finite 1).sub (haversineADouble M lat1 lon1 lat2 lon2))))) :=
  rfl

theorem one_sub_a_eval :
    (Double.finite 1).sub (Double.finite (4503599627370497 / 4503599627370496)) =
      Double.finite (-1 / 4503599627370496) := by
  decide!

theorem mathSqrt_one_sub_a (M : MathLibrary) :
    mathSqrt M (Double.finite (-1 / 4503599627370496)) = Double.nan := by
  have h : ((-1 / 4503599627370496 : ℚ) < 0) := by decide!
  simp only [mathSqrt, h, if_true]

theorem mathAtan2_nan (M : MathLibrary) (y : Double) : mathAtan2 M y Double.nan = Double.nan := by
  cases y <;> rfl

theorem double_add_nan (x : Double) : x.add Double.nan = Double.nan := by
  cases x <;> rfl

/-- In binary64 arithmetic the distance from `(8, 0)` to its antipode is `NaN`. -/
theorem haversineDouble_antipode (M : MathLibrary) (hM : AntipodeValues M) :
    haversineDouble M (Double.finite 8) (Double.finite 0) (Double.finite (-8))
      (Double.finite 180) = Double.nan := by
  rw [haversineDouble_eq_a, haversineADouble_antipode M hM, one_sub_a_eval,
    mathSqrt_one_sub_a, mathAtan2_nan]
  rfl

/-- When the last leg of a sequence is `NaN`, so is the result of the loop, from every
counter that has not passed the last sample. -/
theorem loopDouble_last_nan (M : MathLibrary) (p : List DoubleSample) (u v : DoubleSample)
    (h : haversineDouble M u.lat u.lon v.lat v.lon = Double.nan) :
    ∀ (k i : Nat) (acc : Double), 1 ≤ i → (p ++ [u, v]).length - i = k + 1 →
      calculateTotalDistanceDoubleLoop M (p ++ [u, v]) i acc = Double.nan := by
  intro k
  induction k with
  | zero =>
    intro i acc hi hk
    have hlen : (p ++ [u, v]).length = p.length + 2 := by simp
    obtain rfl : i = p.length + 1 := by omega
    rw [calculateTotalDistanceDoubleLoop, dif_pos (by omega), calculateTotalDistanceDoubleLoop,
      dif_neg (by omega)]
    have hu : (p ++ [u, v]).get ⟨p.length + 1 - 1, by omega⟩ = u := by
      simp [List.getElem_append_right]
    have hv : (p ++ [u, v]).get ⟨p.length + 1, by omega⟩ = v := by
      simp [List.getElem_append_right]
    rw [hu, hv, h, double_add_nan]
  | succ k ih =>
    intro i acc hi hk
    rw [calculateTotalDistanceDoubleLoop, dif_pos (by omega)]
    exact ih (i + 1) _ (by omega) (by omega)

/-! ## The distance engine: main results -/

/-- C1: `calculateTotalDistance` returns the sum, in list order over `i = 1..n-1`, of
`haversine(p[i-1], p[i])`, where `haversine` is the Haversine formula of the
specification on a sphere of radius 6371; the result is `0` for the empty sequence
and for every sequence of one sample. -/
theorem calculateTotalDistance_eq_totalDistanceFormula (p : List Sample) :
    calculateTotalDistance p = totalDistanceFormula p ∧
      (∀ lat1 lon1 lat2 lon2 : ℝ,
        haversine lat1 lon1 lat2 lon2 = haversineFormula lat1 lon1 lat2 lon2) ∧
      calculateTotalDistance [] = 0 ∧ ∀ s : Sample, calculateTotalDistance [s] = 0 := by
  refine ⟨?_, haversine_eq_formula, ?_, ?_⟩
  · unfold calculateTotalDistance totalDistanceFormula
    rw [loop_eq_formula p _ 1 0 rfl]
    simp
  · rw [calculateTotalDistance_eq_segSum]
    simp [segSum]
  · intro s
    rw [calculateTotalDistance_eq_segSum]
    simp [segSum]

/-- C5: over exact real arithmetic the total distance of the reversed sequence is
the total distance of the sequence, and `haversine` is symmetric in its two
points. -/
theorem calculateTotalDistance_reverse (s : List Sample) :
    calculateTotalDistance s.reverse = calculateTotalDistance s ∧
      ∀ lat1 lon1 lat2 lon2 : ℝ,
        haversine lat1 lon1 lat2 lon2 = haversine lat2 lon2 lat1 lon1 := by
  refine ⟨?_, haversine_comm⟩
  rw [calculateTotalDistance_eq_segSum, calculateTotalDistance_eq_segSum, segSum_reverse]

/-- Over exact real arithmetic the distance from `(lat, lon)` to its antipode
`(-lat, lon + 180)` is `6371 * π`, which is within 1 km of 20015 km; `(0, 0)` and
`(0, 180)` are such a pair.  The binary64 evaluation of the code differs: see
`haversineDouble_antipode`. -/
theorem haversine_exact_antipodal (lat lon : ℝ) :
    haversine lat lon (-lat) (lon + 180) = 6371 * Real.pi ∧
      |6371 * Real.pi - 20015| < 1 ∧
      haversine 0 0 0 180 = 6371 * Real.pi := by
  refine ⟨haversine_antipode lat lon, ?_, ?_⟩
  · have h1 := Real.pi_gt_d6
    have h2 := Real.pi_lt_d6
    rw [abs_lt]
    constructor <;> linarith
  · have h := haversine_antipode 0 0
    simpa using h

/-- C7: the distance from a point to itself is `0`, and the total distance of a
sequence whose samples all have the coordinates `(lat, lon)` is `0`. -/
theorem haversine_same_point (lat lon : ℝ) (p : List Sample)
    (h : ∀ s ∈ p, s.lat = lat ∧ s.lon = lon) :
    haversine lat lon lat lon = 0 ∧ calculateTotalDistance p = 0 := by
  refine ⟨haversine_self lat lon, ?_⟩
  rw [calculateTotalDistance_eq_segSum]
  exact segSum_same lat lon p h

theorem haversine_same_point_witness :
    (∀ s ∈ [({ lat := 1, lon := 2, time := 0 } : Sample), { lat := 1, lon := 2, time := 5 },
        { lat := 1, lon := 2, time := 9 }], s.lat = 1 ∧ s.lon = 2) ∧
      haversine 1 2 1 2 = 0 ∧
      calculateTotalDistance [({ lat := 1, lon := 2, time := 0 } : Sample),
        { lat := 1, lon := 2, time := 5 }, { lat := 1, lon := 2, time := 9 }] = 0 := by
  have h : ∀ s ∈ [({ lat := 1, lon := 2, time := 0 } : Sample), { lat := 1, lon := 2, time := 5 },
      { lat := 1, lon := 2, time := 9 }], s.lat = 1 ∧ s.lon = 2 := by
    simp
  exact ⟨h, haversine_same_point 1 2 _ h⟩

/-- Over exact real arithmetic the quantity `a` of `haversine` lies in `[0, 1]`, both
square roots are taken of non-negative numbers, and the distance lies in
`[0, 6371 * π]`; the total distance is non-negative and does not decrease when a sample
is appended.  The binary64 evaluation of the code differs: see
`haversineADouble_antipode` and `loopDouble_last_nan`. -/
theorem haversine_exact_bounds (lat1 lon1 lat2 lon2 : ℝ) :
    haversine lat1 lon1 lat2 lon2 =
        6371 * (2 * atan2 (Real.sqrt (haversineA lat1 lon1 lat2 lon2))
          (Real.sqrt (1 - haversineA lat1 lon1 lat2 lon2))) ∧
      0 ≤ haversineA lat1 lon1 lat2 lon2 ∧
      haversineA lat1 lon1 lat2 lon2 ≤ 1 ∧
      0 ≤ 1 - haversineA lat1 lon1 lat2 lon2 ∧
      0 ≤ haversine lat1 lon1 lat2 lon2 ∧
      haversine lat1 lon1 lat2 lon2 ≤ 6371 * Real.pi ∧
      (∀ p : List Sample, 0 ≤ calculateTotalDistance p) ∧
      ∀ (p : List Sample) (s : Sample),
        calculateTotalDistance p ≤ calculateTotalDistance (p ++ [s]) := by
  refine ⟨rfl, haversineA_nonneg _ _ _ _, haversineA_le_one _ _ _ _, ?_,
    haversine_nonneg _ _ _ _, haversine_le _ _ _ _, ?_, ?_⟩
  · have h := haversineA_le_one lat1 lon1 lat2 lon2
    linarith
  · intro p
    rw [calculateTotalDistance_eq_segSum]
    exact segSum_nonneg p
  · intro p s
    rw [calculateTotalDistance_eq_segSum, calculateTotalDistance_eq_segSum,
      segSum_append_single]
    have h := legFrom_nonneg p.getLast? s
    linarith

/-! ## The session tracker: main results -/

/-- C8: when `navigator.geolocation` is missing, `startTracking` raises the alert
"Geolocation is not supported by this browser." and does nothing else: samples,
start time, watch handle, displayed output and pulse, and the watches of the host are
as they were before the call. -/
theorem startTracking_unsupported (s : State) (now : Int) (h : s.geolocation = false) :
    startTracking s now =
        { s with alerts := s.alerts ++ ["Geolocation is not supported by this browser."] } ∧
      (startTracking s now).positions = s.positions ∧
      (startTracking s now).startTime = s.startTime ∧
      (startTracking s now).watchID = s.watchID ∧
      (startTracking s now).innerHTML = s.innerHTML ∧
      (startTracking s now).pulse = s.pulse ∧
      (startTracking s now).liveWatches = s.liveWatches ∧
      (startTracking s now).nextWatchID = s.nextWatchID := by
  simp [startTracking, h]

theorem startTracking_unsupported_witness :
    (init false).geolocation = false ∧
      startTracking (init false) 7 =
        { init false with alerts := ["Geolocation is not supported by this browser."] } ∧
      (startTracking (init false) 7).liveWatches = [] := by
  have h := startTracking_unsupported (init false) 7 rfl
  exact ⟨rfl, h.1, h.2.2.2.2.2.2.1⟩

/-- C3: in every reachable state with fewer than 2 samples (the fresh page among
them) `stopTracking` shows "Not enough data collected.", shows no distance, time or
speed, and leaves the samples and the start time as they were; it shows a final
report exactly when there are at least 2 samples. -/
theorem stopTracking_insufficient_data (s : State) (now : Int) (hs : Reachable s) :
    (s.positions.length < 2 →
        (stopTracking s now).innerHTML = Output.notEnoughData ∧
        (stopTracking s now).positions = s.positions ∧
        (stopTracking s now).startTime = s.startTime) ∧
      ((∃ d t v, (stopTracking s now).innerHTML = Output.final d t v) ↔
        2 ≤ s.positions.length) := by
  have hout := stopTracking_innerHTML s now (reachable_no_throw s hs)
  constructor
  · intro hlt
    rw [hout, if_pos hlt]
    exact ⟨rfl, stopTracking_positions s now, stopTracking_startTime s now⟩
  · by_cases hlt : s.positions.length < 2
    · rw [hout, if_pos hlt]
      constructor
      · rintro ⟨d, t, v, h⟩
        cases h
      · intro h2
        omega
    · rw [hout, if_neg hlt]
      constructor
      · intro _
        omega
      · intro _
        exact ⟨_, _, _, rfl⟩

theorem stopTracking_insufficient_data_witness :
    Reachable oneSampleSession ∧
      oneSampleSession.positions.length < 2 ∧
      (stopTracking oneSampleSession 9).innerHTML = Output.notEnoughData ∧
      (stopTracking oneSampleSession 9).positions = oneSampleSession.positions ∧
      (stopTracking (init true) 9).innerHTML = Output.notEnoughData := by
  have hr : Reachable oneSampleSession := run_reachable _ _ (Reachable.init true)
  have hl : oneSampleSession.positions.length < 2 := by
    simp [oneSampleSession, run, step, init, startTracking, onPosition]
  have h := (stopTracking_insufficient_data oneSampleSession 9 hr).1 hl
  exact ⟨hr, hl, h.1, h.2.1,
    ((stopTracking_insufficient_data (init true) 9 (Reachable.init true)).1
      (by simp [init])).1⟩

/-- C2: for a session with at least 2 samples, start time `t0` and stop time `t1`,
the final report of `stopTracking` holds the distance `calculateTotalDistance`, the
elapsed minutes `(t1 - t0) / 60000` and the speed `distance / (minutes / 60)`; when
`t1 ≠ t0` the speed is a number `v` with `v * minutes = 60 * distance` (2 km in 2
minutes give 60 km/h); the interim report of `updateStats` holds the same three
values. -/
theorem stopTracking_final_stats (s : State) (t0 t1 : Int) (hs : Reachable s)
    (hn : 2 ≤ s.positions.length) (h0 : s.startTime = some t0) :
    (stopTracking s t1).innerHTML =
        Output.final (calculateTotalDistance s.positions)
          (JSNumber.finite (((t1 - t0 : Int) : ℝ) / 60000))
          ((JSNumber.finite (calculateTotalDistance s.positions)).div
            ((JSNumber.finite (((t1 - t0 : Int) : ℝ) / 60000)).div (JSNumber.finite 60))) ∧
      (t1 ≠ t0 → ∃ v : ℝ,
        (JSNumber.finite (calculateTotalDistance s.positions)).div
            ((JSNumber.finite (((t1 - t0 : Int) : ℝ) / 60000)).div (JSNumber.finite 60)) =
          JSNumber.finite v ∧
        v * ((((t1 - t0 : Int) : ℝ)) / 60000) = 60 * calculateTotalDistance s.positions) ∧
      (JSNumber.finite 2).div ((JSNumber.finite 2).div (JSNumber.finite 60)) =
        JSNumber.finite 60 ∧
      (updateStats s t1).innerHTML =
        Output.tracking (calculateTotalDistance s.positions)
          (JSNumber.finite (((t1 - t0 : Int) : ℝ) / 60000))
          ((JSNumber.finite (calculateTotalDistance s.positions)).div
            ((JSNumber.finite (((t1 - t0 : Int) : ℝ) / 60000)).div (JSNumber.finite 60))) := by
  refine ⟨?_, ?_, ?_, ?_⟩
  · rw [stopTracking_innerHTML s t1 (reachable_no_throw s hs), if_neg (by omega), h0,
      timeTaken_eq]
  · intro hne
    have hd : (((t1 - t0 : Int) : ℝ)) ≠ 0 := by
      have : t1 - t0 ≠ 0 := sub_ne_zero.mpr hne
      exact_mod_cast this
    generalize (((t1 - t0 : Int) : ℝ)) = e at hd ⊢
    have hm : e / 60000 / 60 ≠ 0 := by positivity
    refine ⟨calculateTotalDistance s.positions / (e / 60000 / 60), ?_, ?_⟩
    · rw [jsdiv_finite _ _ (by norm_num), jsdiv_finite _ _ hm]
    · field_simp
      ring
  · rw [jsdiv_finite _ _ (by norm_num), jsdiv_finite _ _ (by norm_num)]
    congr 1
    norm_num
  · unfold updateStats
    dsimp only
    rw [h0, timeTaken_eq]

theorem stopTracking_final_stats_witness :
    Reachable twoSampleSession ∧
      2 ≤ twoSampleSession.positions.length ∧
      twoSampleSession.startTime = some 0 ∧
      (120000 : Int) ≠ 0 ∧
      (stopTracking twoSampleSession 120000).innerHTML =
        Output.final (calculateTotalDistance twoSampleSession.positions)
          (JSNumber.finite ((((120000 : Int) - 0 : Int) : ℝ) / 60000))
          ((JSNumber.finite (calculateTotalDistance twoSampleSession.positions)).div
            ((JSNumber.finite ((((120000 : Int) - 0 : Int) : ℝ) / 60000)).div
              (JSNumber.finite 60))) ∧
      ∃ v : ℝ,
        (JSNumber.finite (calculateTotalDistance twoSampleSession.positions)).div
            ((JSNumber.finite ((((120000 : Int) - 0 : Int) : ℝ) / 60000)).div
              (JSNumber.finite 60)) = JSNumber.finite v ∧
        v * (((((120000 : Int) - 0 : Int) : ℝ)) / 60000) =
          60 * calculateTotalDistance twoSampleSession.positions := by
  have hr : Reachable twoSampleSession := run_reachable _ _ (Reachable.init true)
  have hl : 2 ≤ twoSampleSession.positions.length := by
    simp [twoSampleSession, run, step, init, startTracking, onPosition, updateStats]
  have h0 : twoSampleSession.startTime = some 0 := by
    simp [twoSampleSession, run, step, init, startTracking, onPosition, updateStats]
  have hne : (120000 : Int) ≠ 0 := by decide
  have h := stopTracking_final_stats twoSampleSession 0 120000 hr hl h0
  exact ⟨hr, hl, h0, hne, h.1, h.2.1 hne⟩

/-- C9, as the code behaves: with at least 2 samples and an elapsed time of exactly
zero the division is not guarded.  `stopTracking` and `updateStats` show their usual
report; its elapsed time is `0` and its average speed is not a finite number: `NaN`
when the distance is `0`, `Infinity` when it is positive. -/
theorem stats_zero_elapsed (s : State) (t0 : Int) (hs : Reachable s)
    (hn : 2 ≤ s.positions.length) (h0 : s.startTime = some t0) :
    (stopTracking s t0).innerHTML =
        Output.final (calculateTotalDistance s.positions) (JSNumber.finite 0)
          (if calculateTotalDistance s.positions = 0 then JSNumber.nan
            else JSNumber.posInf) ∧
      (updateStats s t0).innerHTML =
        Output.tracking (calculateTotalDistance s.positions) (JSNumber.finite 0)
          (if calculateTotalDistance s.positions = 0 then JSNumber.nan
            else JSNumber.posInf) ∧
      (if calculateTotalDistance s.positions = 0 then JSNumber.nan
          else JSNumber.posInf).isFinite = false := by
  have ht : ((dateMinus t0 (some t0)).div (JSNumber.finite 1000)).div (JSNumber.finite 60) =
      JSNumber.finite 0 := by
    rw [timeTaken_eq]
    simp
  have hz : (JSNumber.finite 0).div (JSNumber.finite 60) = JSNumber.finite 0 := by
    rw [jsdiv_finite _ _ (by norm_num)]
    simp
  refine ⟨?_, ?_, ?_⟩
  · rw [stopTracking_innerHTML s t0 (reachable_no_throw s hs), if_neg (by omega), h0, ht, hz,
      jsdiv_zero _ (calculateTotalDistance_nonneg s.positions)]
  · unfold updateStats
    dsimp only
    rw [h0, ht, hz, jsdiv_zero _ (calculateTotalDistance_nonneg s.positions)]
  · split_ifs <;> rfl

theorem zeroElapsedSession_positions :
    zeroElapsedSession.positions =
      [{ lat := 0, lon := 0, time := 0 }, { lat := 0, lon := 0, time := 0 }] := by
  simp [zeroElapsedSession, run, step, init, startTracking, onPosition, updateStats]

theorem zeroElapsedSession_startTime : zeroElapsedSession.startTime = some 0 := by
  simp [zeroElapsedSession, run, step, init, startTracking, onPosition, updateStats]

theorem zeroElapsedSession_distance :
    calculateTotalDistance zeroElapsedSession.positions = 0 := by
  rw [zeroElapsedSession_positions, calculateTotalDistance_eq_segSum]
  simp [segSum, haversine_self]

theorem stats_zero_elapsed_witness :
    Reachable zeroElapsedSession ∧
      2 ≤ zeroElapsedSession.positions.length ∧
      zeroElapsedSession.startTime = some 0 ∧
      (stopTracking zeroElapsedSession 0).innerHTML =
        Output.final (calculateTotalDistance zeroElapsedSession.positions) (JSNumber.finite 0)
          (if calculateTotalDistance zeroElapsedSession.positions = 0 then JSNumber.nan
            else JSNumber.posInf) := by
  have hr : Reachable zeroElapsedSession := run_reachable _ _ (Reachable.init true)
  have hl : 2 ≤ zeroElapsedSession.positions.length := by
    rw [zeroElapsedSession_positions]
    simp
  exact ⟨hr, hl, zeroElapsedSession_startTime,
    (stats_zero_elapsed zeroElapsedSession 0 hr hl zeroElapsedSession_startTime).1⟩

/-- C9, as the specification states it, fails: in a session whose two samples arrive
in the millisecond of its start, `stopTracking` at that same millisecond shows a
final report whose average speed is `NaN`, not a `DegenerateStats` report. -/
theorem zero_elapsed_reports_nan :
    2 ≤ zeroElapsedSession.positions.length ∧
      zeroElapsedSession.startTime = some 0 ∧
      (stopTracking zeroElapsedSession 0).innerHTML =
        Output.final 0 (JSNumber.finite 0) JSNumber.nan ∧
      (updateStats zeroElapsedSession 0).innerHTML =
        Output.tracking 0 (JSNumber.finite 0) JSNumber.nan := by
  have hr : Reachable zeroElapsedSession := run_reachable _ _ (Reachable.init true)
  have hl : 2 ≤ zeroElapsedSession.positions.length := by
    rw [zeroElapsedSession_positions]
    simp
  have ht : ((dateMinus 0 (some 0)).div (JSNumber.finite 1000)).div (JSNumber.finite 60) =
      JSNumber.finite 0 := by
    rw [timeTaken_eq]
    simp
  have hz : (JSNumber.finite 0).div (JSNumber.finite 60) = JSNumber.finite 0 := by
    rw [jsdiv_finite _ _ (by norm_num)]
    simp
  have hnan : (JSNumber.finite 0).div (JSNumber.finite 0) = JSNumber.nan := by
    simp [JSNumber.div]
  refine ⟨hl, zeroElapsedSession_startTime, ?_, ?_⟩
  · rw [stopTracking_innerHTML _ 0 (reachable_no_throw _ hr), if_neg (by omega),
      zeroElapsedSession_startTime, zeroElapsedSession_distance, ht, hz, hnan]
  · unfold updateStats
    dsimp only
    rw [zeroElapsedSession_startTime, zeroElapsedSession_distance, ht, hz, hnan]

/-- C4 fails on the code: `startTracking` does not clear the watch of an earlier
start.  After two clicks on the start button both watches are live, a position
delivered by the first one is appended to the samples of the second session, and a
click on the stop button clears the second watch only. -/
theorem startTracking_twice_leaks_watch :
    restartedSession.liveWatches = [1, 2] ∧
      restartedSession.watchID = some 2 ∧
      (step restartedSession (Event.position 1 10 20 2 2)).positions =
        [{ lat := 10, lon := 20, time := 2 }] ∧
      (step restartedSession (Event.clickStop 3)).liveWatches = [1] := by
  refine ⟨?_, ?_, ?_, ?_⟩
  · simp [restartedSession, run, step, init, startTracking]
  · simp [restartedSession, run, step, init, startTracking]
  · simp [restartedSession, run, step, init, startTracking, onPosition]
  · simp [restartedSession, run, step, init, startTracking, stopTracking, watchIDTruthy,
      calculateTotalDistance]

/-! ## The distance engine in binary64 arithmetic: main results -/

/-- C6 fails on the code: `(8, 0)` and `(-8, 180)` are antipodes with latitudes in
`[-90, 90]`, and in binary64 arithmetic, with the values that `Math.sin` and `Math.cos`
return at the four arguments reached, `haversine(8, 0, -8, 180)` is `NaN`, not a
distance within 1 km of 20015 km. -/
theorem haversineDouble_antipode_nan (M : MathLibrary) (hM : AntipodeValues M) :
    haversineDouble M (Double.finite 8) (Double.finite 0) (Double.finite (-8))
      (Double.finite 180) = Double.nan :=
  haversineDouble_antipode M hM

theorem haversineDouble_antipode_nan_witness :
    AntipodeValues tableLibrary ∧
      haversineDouble tableLibrary (Double.finite 8) (Double.finite 0) (Double.finite (-8))
        (Double.finite 180) = Double.nan :=
  ⟨tableLibrary_values, haversineDouble_antipode_nan tableLibrary tableLibrary_values⟩

/-- C10 fails on the code: for the latitudes `8` and `-8`, both in `[-90, 90]`, the
quantity `a` that `haversine(8, 0, -8, 180)` computes in binary64 arithmetic is
`1 + 2 ^ (-52)`, which is more than `1`; `1 - a` is negative and its `Math.sqrt` is
`NaN`.  The total distance of the one sample `(8, 0)` is `0`, and after the sample
`(-8, 180)` is appended it is `NaN`, as is the total of every sequence that ends with
these two samples. -/
theorem haversineADouble_exceeds_one (M : MathLibrary) (hM : AntipodeValues M) :
    haversineADouble M (Double.finite 8) (Double.finite 0) (Double.finite (-8))
        (Double.finite 180) = Double.finite (4503599627370497 / 4503599627370496) ∧
      (1 : ℚ) < 4503599627370497 / 4503599627370496 ∧
      (Double.finite 1).sub (Double.finite (4503599627370497 / 4503599627370496)) =
        Double.finite (-1 / 4503599627370496) ∧
      mathSqrt M (Double.finite (-1 / 4503599627370496)) = Double.nan ∧
      (∀ t : Int, calculateTotalDistanceDouble M
        [{ lat := Double.finite 8, lon := Double.finite 0, time := t }] = Double.finite 0) ∧
      ∀ (p : List DoubleSample) (t1 t2 : Int),
        calculateTotalDistanceDouble M
          (p ++ [{ lat := Double.finite 8, lon := Double.finite 0, time := t1 },
            { lat := Double.finite (-8), lon := Double.finite 180, time := t2 }]) =
          Double.nan := by
  refine ⟨haversineADouble_antipode M hM, by decide!, one_sub_a_eval, mathSqrt_one_sub_a M,
    ?_, ?_⟩
  · intro t
    unfold calculateTotalDistanceDouble
    rw [calculateTotalDistanceDoubleLoop, dif_neg (by simp)]
  · intro p t1 t2
    unfold calculateTotalDistanceDouble
    have hlen : (p ++ [({ lat := Double.finite 8, lon := Double.finite 0, time := t1 } :
        DoubleSample), { lat := Double.finite (-8), lon := Double.finite 180, time := t2 }]).length
        - 1 = p.length + 1 := by
      simp
    exact loopDouble_last_nan M p
      { lat := Double.finite 8, lon := Double.finite 0, time := t1 }
      { lat := Double.finite (-8), lon := Double.finite 180, time := t2 }
      (haversineDouble_antipode M hM) p.length 1 (Double.finite 0) (le_refl 1) hlen

theorem haversineADouble_exceeds_one_witness :
    AntipodeValues tableLibrary ∧
      haversineADouble tableLibrary (Double.finite 8) (Double.finite 0) (Double.finite (-8))
        (Double.finite 180) = Double.finite (4503599627370497 / 4503599627370496) ∧
      calculateTotalDistanceDouble tableLibrary
        [{ lat := Double.finite 0, lon := Double.finite 0, time := 0 },
          { lat := Double.finite 8, lon := Double.finite 0, time := 1 },
          { lat := Double.finite (-8), lon := Double.finite 180, time := 2 }] =
        Double.nan :=
  ⟨tableLibrary_values,
    (haversineADouble_exceeds_one tableLibrary tableLibrary_values).1,
    (haversineADouble_exceeds_one tableLibrary tableLibrary_values).2.2.2.2.2
      [{ lat := Double.finite 0, lon := Double.finite 0, time := 0 }] 1 2⟩

end GpsTracker
